import Mathlib

/-!
Shallow embedding of `src/src/lib.rs` — the `Radar` cache wrapper around the
kartoffel radar (struct `Radar` with fields `recent_scan_time : u32`,
`recent_scan_type : usize`, `scan_time : [(usize, u32); 4]`, and methods
`new`, `at`, `scan`, `time_to_next_scan`, `ready`, `wait`).

Machine integers are modelled as `Nat` (`u32` arithmetic made explicit with
`% 2^32` where overflow matters, see `sub32`); the external collaborators
(`radar_read`, `radar_scan`, `is_radar_ready`, `timer_ticks`) are passed in
as explicit parameters: a `Sensor` function for `radar_read`, a `ready : Bool`
for `is_radar_ready`, and a `time : Nat` for `timer_ticks`.
-/

namespace KartoffelRadar

/-- Embeds the array field `scan_time : [(usize, u32); 4]` (lib.rs line 17):
one `(scan size, tick)` record per ring index 0..3. -/
structure Rings where
  r0 : Nat × Nat
  r1 : Nat × Nat
  r2 : Nat × Nat
  r3 : Nat × Nat
deriving DecidableEq

/-- Array indexing `scan_time[i]` for an in-bounds index `i : Fin 4`. -/
def Rings.get (rs : Rings) (i : Fin 4) : Nat × Nat :=
  match i with
  | ⟨0, _⟩ => rs.r0
  | ⟨1, _⟩ => rs.r1
  | ⟨2, _⟩ => rs.r2
  | ⟨3, _⟩ => rs.r3
  | ⟨n + 4, h⟩ => absurd h (by omega)

/-- Embeds `pub struct Radar` (lib.rs lines 11-18). -/
structure Radar where
  /-- `recent_scan_time : u32` — the tick that the last scan went off. -/
  recent_scan_time : Nat
  /-- `recent_scan_type : usize` — the size of the last scan, e.g. 3,5,7,9. -/
  recent_scan_type : Nat
  /-- per-ring records, see `Rings`. -/
  scan_time : Rings
deriving DecidableEq

/-- Embeds `Radar::new` (lib.rs lines 21-27): note the rings start as
`[(3, 0), (5, 0), (7, 0), (9, 0)]`. -/
def Radar.new : Radar :=
  { scan_time := ⟨(3, 0), (5, 0), (7, 0), (9, 0)⟩
    recent_scan_type := 3
    recent_scan_time := 0 }

/-- The external collaborator `radar_read(scan_size, x, y, z) -> u32`:
a pure read of already-scanned data, a parameter of the model. -/
abbrev Sensor := Nat → Int → Int → Nat → Nat

/-- The half-width computation inside `Radar::at` (lib.rs lines 60-65):
`a_x = x.unsigned_abs(); a_y = y.unsigned_abs();
 bigger = if a_x > a_y { a_x } else { a_y }; if bigger == 0 { bigger = 1 }`. -/
def clampedHalfWidth (x y : Int) : Nat :=
  let a_x := x.natAbs
  let a_y := y.natAbs
  let bigger := if a_x > a_y then a_x else a_y
  if bigger = 0 then 1 else bigger

/-- The spec's phrasing of the same quantity: `max(|x|, |y|)` clamped to
minimum 1.  Stated separately so the code's branching can be compared
against the spec's words. -/
def specHalfWidth (x y : Int) : Nat :=
  max (max x.natAbs y.natAbs) 1

/-- Embeds `Radar::at` (lib.rs lines 58-71).  Returns `None` when the
clamped half-width exceeds 4, otherwise reads `scan_time[bigger - 1]` and
pairs the raw sensor read (`radar_read(scan_size, x, y, 0) as u8 as char`)
with the recorded tick. -/
def Radar.atR (r : Radar) (sensor : Sensor) (x y : Int) : Option (Char × Nat) :=
  if _hb : 4 < clampedHalfWidth x y then none
  else
    let p := r.scan_time.get ⟨clampedHalfWidth x y - 1, by omega⟩
    some (Char.ofNat (sensor p.1 x y 0 % 256), p.2)

/-- The two failure conditions of `Radar::scan`.  In the Rust source both
return the same value `core::fmt::Error`; the constructors tag which of the
two return sites (lib.rs line 86 resp. line 124) produced the error. -/
inductive ScanError where
  | notReady
  | invalidSize
deriving DecidableEq

/-- Embeds `Radar::scan` (lib.rs lines 84-126).  `ready` stands for
`self.ready()` (a pass-through to `is_radar_ready()`) and `time` for the
`timer_ticks()` value read inside the successful branch.  The returned
`Radar` is the post-state of `&mut self`; on the two error paths the state
is returned unchanged, exactly as in the source. -/
def Radar.scan (r : Radar) (ready : Bool) (time : Nat) (size : Nat) :
    Radar × Except ScanError Unit :=
  if !ready then (r, .error .notReady)
  else if size = 3 then
    ({ scan_time := { r.scan_time with r0 := (3, time) }
       recent_scan_time := time
       recent_scan_type := 3 }, .ok ())
  else if size = 5 then
    ({ scan_time := { r.scan_time with r0 := (5, time), r1 := (5, time) }
       recent_scan_type := 5
       recent_scan_time := time }, .ok ())
  else if size = 7 then
    ({ scan_time := { r.scan_time with r0 := (7, time), r1 := (7, time), r2 := (7, time) }
       recent_scan_type := 7
       recent_scan_time := time }, .ok ())
  else if size = 9 then
    ({ scan_time := ⟨(9, time), (9, time), (9, time), (9, time)⟩
       recent_scan_type := 9
       recent_scan_time := time }, .ok ())
  else (r, .error .invalidSize)

/-- The cooldown match inside `Radar::time_to_next_scan`
(lib.rs lines 132-138). -/
def cooldownOf (t : Nat) : Nat :=
  match t with
  | 3 => 10000
  | 5 => 15000
  | 7 => 22000
  | 9 => 30000
  | _ => 0

/-- Wrapping `u32` subtraction: both operands are `u32` values and the
result is reduced `% 2^32`, as Rust release-mode `-` on `u32` does. -/
def sub32 (a b : Nat) : Nat :=
  (a % 2 ^ 32 + (2 ^ 32 - b % 2 ^ 32)) % 2 ^ 32

/-- Embeds `Radar::time_to_next_scan` (lib.rs lines 130-140): computes
`v - time - self.recent_scan_time` in `u32` arithmetic, where `time` is the
`timer_ticks()` reading. -/
def Radar.time_to_next_scan (r : Radar) (time : Nat) : Nat :=
  sub32 (sub32 (cooldownOf r.recent_scan_type) time) r.recent_scan_time

/-- The spec's formula for `timeToNextScan`: the signed duration
`cooldown(mostRecentSize) - (now - mostRecentTime)`. -/
def timeToNextScanSpec (r : Radar) (time : Nat) : Int :=
  (cooldownOf r.recent_scan_type : Int) - ((time : Int) - (r.recent_scan_time : Int))

/-- States of the cache reachable from `Radar::new` by any sequence of
operations.  Only `scan` ever mutates the state (`at`, `time_to_next_scan`,
`ready` and `wait` take `&self`), so a step is one `scan` call with an
arbitrary readiness flag, tick reading and requested size — failing calls
are included and leave the state unchanged. -/
inductive Reachable : Radar → Prop where
  | new : Reachable Radar.new
  | scan (r : Radar) (ready : Bool) (time size : Nat) :
      Reachable r → Reachable (r.scan ready time size).1

/-- A fixed sensor used to instantiate witness statements. -/
def constSensor : Sensor := fun _ _ _ _ => 65

/-- The code's half-width computation agrees with the spec's
`max(max |x| |y|) 1`. -/
theorem clampedHalfWidth_eq_spec (x y : Int) :
    clampedHalfWidth x y = specHalfWidth x y := by
  simp only [clampedHalfWidth, specHalfWidth]
  split <;> split <;> omega

/-- On the two error paths the state returned by `scan` is the pre-state. -/
theorem scan_fst_of_not_ready (r : Radar) (time size : Nat) :
    (r.scan false time size).1 = r := by
  simp [Radar.scan]

/-- With an invalid size the state returned by `scan` is the pre-state. -/
theorem scan_fst_of_invalid (r : Radar) (time size : Nat)
    (h3 : size ≠ 3) (h5 : size ≠ 5) (h7 : size ≠ 7) (h9 : size ≠ 9) :
    (r.scan true time size).1 = r := by
  simp [Radar.scan, h3, h5, h7, h9]

/-- C1: for every coordinate (x, y) with half-width `h = max(|x|,|y|)`
clamped to minimum 1: if `1 ≤ h ≤ 4` (equivalently `h = i + 1` for a ring
index `i : Fin 4`), `atR` returns the sensor read of the recorded scan size
paired with exactly the timestamp recorded in ring `h - 1`; if `h > 4` it
returns no data; and (0, 0) has clamped half-width 1, i.e. maps to ring 0. -/
theorem at_reads_ring (r : Radar) (sensor : Sensor) (x y : Int) :
    (∀ i : Fin 4, specHalfWidth x y = i.val + 1 →
        r.atR sensor x y =
          some (Char.ofNat (sensor (r.scan_time.get i).1 x y 0 % 256),
                (r.scan_time.get i).2)) ∧
    (4 < specHalfWidth x y → r.atR sensor x y = none) ∧
    specHalfWidth 0 0 = 1 := by
  refine ⟨fun i hi => ?_, fun h => ?_, rfl⟩
  · have hcl : clampedHalfWidth x y = i.val + 1 := by
      rw [clampedHalfWidth_eq_spec]; exact hi
    have hle : ¬ 4 < clampedHalfWidth x y := by
      have := i.isLt; omega
    unfold Radar.atR
    rw [dif_neg hle]
    simp only [hcl, Nat.add_sub_cancel, Fin.eta]
  · have hcl : 4 < clampedHalfWidth x y := by
      rw [clampedHalfWidth_eq_spec]; exact h
    unfold Radar.atR
    rw [dif_pos hcl]

/-- C1 witness: on the initial cache, `atR` at (1, 0) reads ring 0 and at
(9, 0) returns no data. -/
theorem at_reads_ring_witness :
    Radar.new.atR constSensor 1 0 =
      some (Char.ofNat (constSensor (Radar.new.scan_time.get 0).1 1 0 0 % 256),
            (Radar.new.scan_time.get 0).2) ∧
    Radar.new.atR constSensor 9 0 = none :=
  ⟨(at_reads_ring Radar.new constSensor 1 0).1 0 (by decide),
   (at_reads_ring Radar.new constSensor 9 0).2.1 (by decide)⟩

/-- C2 counterexample: at creation the rings are NOT all `(3, 0)` — ring 1
is `(5, 0)` — and from the initial state a successful `scan(5)` at tick 100
leaves ring 2 at `(7, 0)`, not `(3, 0)`. -/
theorem new_rings_counterexample :
    Radar.new.scan_time.r1 ≠ (3, 0) ∧
    (Radar.new.scan true 100 5).1.scan_time.r2 ≠ (3, 0) := by
  exact ⟨by decide, by decide⟩

/-- C2 amended: at creation ring i holds `(2 * i + 3, 0)`, i.e. the rings
are `(3,0), (5,0), (7,0), (9,0)`; consequently, from the initial state,
`scan(5)` succeeding at tick 100 yields ring0 = (5,100), ring1 = (5,100),
ring2 = (7,0), ring3 = (9,0). -/
theorem new_rings_and_scan5 :
    Radar.new.scan_time = ⟨(3, 0), (5, 0), (7, 0), (9, 0)⟩ ∧
    (Radar.new.scan true 100 5).1 =
      { recent_scan_time := 100
        recent_scan_type := 5
        scan_time := ⟨(5, 100), (5, 100), (7, 0), (9, 0)⟩ } ∧
    (Radar.new.scan true 100 5).2 = .ok () :=
  ⟨rfl, rfl, rfl⟩

/-- C3: the code computes `cooldown - now - mostRecentTime` in unsigned
`u32` arithmetic, not the claimed signed `cooldown - (now - mostRecentTime)`:
after a `scan(3)` at tick 100, at tick 150 the code yields 9750 while the
claimed formula yields 9950. -/
theorem time_to_next_scan_divergence :
    (Radar.new.scan true 100 3).1.time_to_next_scan 150 = 9750 ∧
    timeToNextScanSpec (Radar.new.scan true 100 3).1 150 = 9950 ∧
    (9750 : Int) ≠ 9950 :=
  ⟨by decide, by decide, by decide⟩

/-- C4: `scan` called while not ready fails at the `NotReady` return site
with the state exactly unchanged; called while ready with a size outside
{3, 5, 7, 9} it fails at the `InvalidSize` return site with the state
exactly unchanged; and on every error outcome the state is the pre-state. -/
theorem scan_failure_no_mutation (r : Radar) (ready : Bool) (time size : Nat) :
    (ready = false → r.scan ready time size = (r, .error .notReady)) ∧
    (ready = true → size ∉ [3, 5, 7, 9] →
      r.scan ready time size = (r, .error .invalidSize)) ∧
    ((r.scan ready time size).2 ≠ .ok () → (r.scan ready time size).1 = r) := by
  refine ⟨fun h => ?_, fun h hs => ?_, fun h => ?_⟩
  · subst h; simp [Radar.scan]
  · subst h
    simp only [List.mem_cons, List.not_mem_nil, or_false, not_or] at hs
    obtain ⟨h3, h5, h7, h9⟩ := hs
    simp [Radar.scan, h3, h5, h7, h9]
  · cases ready
    · simp [Radar.scan]
    · by_cases h3 : size = 3
      · subst h3; simp [Radar.scan] at h
      by_cases h5 : size = 5
      · subst h5; simp [Radar.scan] at h
      by_cases h7 : size = 7
      · subst h7; simp [Radar.scan] at h
      by_cases h9 : size = 9
      · subst h9; simp [Radar.scan] at h
      exact scan_fst_of_invalid r time size h3 h5 h7 h9

/-- C4 witness: concrete failing calls — not ready with size 5, and ready
with the invalid size 4 — both leave the initial state unchanged. -/
theorem scan_failure_no_mutation_witness :
    Radar.new.scan false 50 5 = (Radar.new, .error .notReady) ∧
    Radar.new.scan true 50 4 = (Radar.new, .error .invalidSize) :=
  ⟨(scan_failure_no_mutation Radar.new false 50 5).1 rfl,
   (scan_failure_no_mutation Radar.new true 50 4).2.1 rfl (by decide)⟩

/-- C5: when `scan(9)` succeeds at tick T, all four ring records become
`(9, T)` and `recent_scan_type = 9`, `recent_scan_time = T`. -/
theorem scan9_sets_all_rings (r : Radar) (ready : Bool) (T : Nat)
    (h : (r.scan ready T 9).2 = .ok ()) :
    (r.scan ready T 9).1 =
      { recent_scan_time := T
        recent_scan_type := 9
        scan_time := ⟨(9, T), (9, T), (9, T), (9, T)⟩ } := by
  cases ready
  · simp [Radar.scan] at h
  · simp [Radar.scan]

/-- C5 witness: `scan(9)` from the initial state at tick 100. -/
theorem scan9_sets_all_rings_witness :
    (Radar.new.scan true 100 9).1 =
      { recent_scan_time := 100
        recent_scan_type := 9
        scan_time := ⟨(9, 100), (9, 100), (9, 100), (9, 100)⟩ } :=
  scan9_sets_all_rings Radar.new true 100 rfl

/-- C6: a successful `scan` of size S sets exactly the rings with
half-width `i + 1 ≤ (S - 1) / 2` to `(S, now)` and leaves every ring beyond
that radius exactly unchanged (besides updating `recent_scan_type` and
`recent_scan_time`); in particular after `scan(3)` at tick T1 then
`scan(5)` at tick T2 > T1, rings 0 and 1 are `(5, T2)` while rings 2 and 3
hold whatever they held before the sequence. -/
theorem scan_frame (r : Radar) (ready : Bool) (time size : Nat)
    (hok : (r.scan ready time size).2 = .ok ()) (T1 T2 : Nat) (_hT : T1 < T2) :
    (∀ i : Fin 4,
      (i.val + 1 ≤ (size - 1) / 2 →
        (r.scan ready time size).1.scan_time.get i = (size, time)) ∧
      ((size - 1) / 2 < i.val + 1 →
        (r.scan ready time size).1.scan_time.get i = r.scan_time.get i)) ∧
    (r.scan ready time size).1.recent_scan_type = size ∧
    (r.scan ready time size).1.recent_scan_time = time ∧
    (((r.scan true T1 3).1.scan true T2 5).1.scan_time.r0 = (5, T2) ∧
     ((r.scan true T1 3).1.scan true T2 5).1.scan_time.r1 = (5, T2) ∧
     ((r.scan true T1 3).1.scan true T2 5).1.scan_time.r2 = r.scan_time.r2 ∧
     ((r.scan true T1 3).1.scan true T2 5).1.scan_time.r3 = r.scan_time.r3) := by
  have hready : ready = true := by
    cases ready
    · simp [Radar.scan] at hok
    · rfl
  subst hready
  by_cases h3 : size = 3
  · subst h3
    refine ⟨fun i => ?_, rfl, rfl, rfl, rfl, rfl, rfl⟩
    fin_cases i
    · exact ⟨fun _ => rfl, fun h => absurd h (by decide)⟩
    · exact ⟨fun h => absurd h (by decide), fun _ => rfl⟩
    · exact ⟨fun h => absurd h (by decide), fun _ => rfl⟩
    · exact ⟨fun h => absurd h (by decide), fun _ => rfl⟩
  by_cases h5 : size = 5
  · subst h5
    refine ⟨fun i => ?_, rfl, rfl, rfl, rfl, rfl, rfl⟩
    fin_cases i
    · exact ⟨fun _ => rfl, fun h => absurd h (by decide)⟩
    · exact ⟨fun _ => rfl, fun h => absurd h (by decide)⟩
    · exact ⟨fun h => absurd h (by decide), fun _ => rfl⟩
    · exact ⟨fun h => absurd h (by decide), fun _ => rfl⟩
  by_cases h7 : size = 7
  · subst h7
    refine ⟨fun i => ?_, rfl, rfl, rfl, rfl, rfl, rfl⟩
    fin_cases i
    · exact ⟨fun _ => rfl, fun h => absurd h (by decide)⟩
    · exact ⟨fun _ => rfl, fun h => absurd h (by decide)⟩
    · exact ⟨fun _ => rfl, fun h => absurd h (by decide)⟩
    · exact ⟨fun h => absurd h (by decide), fun _ => rfl⟩
  by_cases h9 : size = 9
  · subst h9
    refine ⟨fun i => ?_, rfl, rfl, rfl, rfl, rfl, rfl⟩
    fin_cases i
    · exact ⟨fun _ => rfl, fun h => absurd h (by decide)⟩
    · exact ⟨fun _ => rfl, fun h => absurd h (by decide)⟩
    · exact ⟨fun _ => rfl, fun h => absurd h (by decide)⟩
    · exact ⟨fun _ => rfl, fun h => absurd h (by decide)⟩
  · exfalso
    simp [Radar.scan, h3, h5, h7, h9] at hok

/-- C6 witness: a successful `scan(7)` from the initial state at tick 55
rewrites ring 1 but leaves ring 3 unchanged. -/
theorem scan_frame_witness :
    (Radar.new.scan true 55 7).1.scan_time.get 1 = (7, 55) ∧
    (Radar.new.scan true 55 7).1.scan_time.get 3 = Radar.new.scan_time.get 3 ∧
    (Radar.new.scan true 55 7).1.recent_scan_type = 7 :=
  ⟨((scan_frame Radar.new true 55 7 rfl 10 20 (by decide)).1 1).1 (by decide),
   ((scan_frame Radar.new true 55 7 rfl 10 20 (by decide)).1 3).2 (by decide),
   (scan_frame Radar.new true 55 7 rfl 10 20 (by decide)).2.1⟩

/-- C7: `atR` takes the cache by shared reference and is deterministic in
the cache state and the sensor read, so two consecutive calls for the same
coordinate with no intervening `scan` return identical content and
identical timestamp. -/
theorem at_idempotent (r : Radar) (sensor : Sensor) (x y : Int)
    (c c' : Char) (t t' : Nat)
    (h1 : r.atR sensor x y = some (c, t)) (h2 : r.atR sensor x y = some (c', t')) :
    c = c' ∧ t = t' := by
  rw [h1] at h2
  injection h2 with hp
  injection hp with hc ht
  exact ⟨hc, ht⟩

/-- C7 witness: two reads of (0, 0) on the initial cache agree. -/
theorem at_idempotent_witness : ('A' : Char) = 'A' ∧ (0 : Nat) = 0 :=
  at_idempotent Radar.new constSensor 0 0 'A' 'A' 0 0 (by decide) (by decide)

/-- C8: `atR` is total on all signed inputs, and whenever the ring-array
lookup is reached (the clamped half-width is not above 4) the computed
index `clampedHalfWidth - 1` is within bounds `[0, 3]`, so the array access
in `Radar::at` never goes out of bounds. -/
theorem at_index_in_bounds (x y : Int) (h : ¬ 4 < clampedHalfWidth x y) :
    clampedHalfWidth x y - 1 < 4 ∧
    ∀ (r : Radar) (sensor : Sensor), (r.atR sensor x y).isSome = true := by
  refine ⟨by omega, fun r sensor => ?_⟩
  unfold Radar.atR
  rw [dif_neg h]
  rfl

/-- C8 witness: at (2, -3) the lookup index is in bounds and `atR` returns
data. -/
theorem at_index_in_bounds_witness :
    clampedHalfWidth 2 (-3) - 1 < 4 ∧
    (Radar.new.atR constSensor 2 (-3)).isSome = true :=
  ⟨(at_index_in_bounds 2 (-3) (by decide)).1,
   (at_index_in_bounds 2 (-3) (by decide)).2 Radar.new constSensor⟩

/-- C9: in every state reachable from `new` by any sequence of operations,
`recent_scan_type` lies in {3, 5, 7, 9}, so the cooldown table's default
branch (value 0) is never taken. -/
theorem recent_scan_type_invariant (r : Radar) (h : Reachable r) :
    r.recent_scan_type ∈ [3, 5, 7, 9] ∧ cooldownOf r.recent_scan_type ≠ 0 := by
  have mem : r.recent_scan_type ∈ [3, 5, 7, 9] := by
    induction h with
    | new => decide
    | scan r ready time size hr ih =>
      cases ready
      · rw [scan_fst_of_not_ready]; exact ih
      · by_cases h3 : size = 3
        · subst h3; simp [Radar.scan]
        by_cases h5 : size = 5
        · subst h5; simp [Radar.scan]
        by_cases h7 : size = 7
        · subst h7; simp [Radar.scan]
        by_cases h9 : size = 9
        · subst h9; simp [Radar.scan]
        rw [scan_fst_of_invalid r time size h3 h5 h7 h9]; exact ih
  refine ⟨mem, ?_⟩
  simp only [List.mem_cons, List.not_mem_nil, or_false] at mem
  rcases mem with h | h | h | h <;> rw [h] <;> decide

/-- C9 witness: the invariant at the initial state. -/
theorem recent_scan_type_invariant_witness :
    Radar.new.recent_scan_type ∈ [3, 5, 7, 9] ∧
    cooldownOf Radar.new.recent_scan_type ≠ 0 :=
  recent_scan_type_invariant Radar.new Reachable.new

/-- C10: in every state reachable from `new`, each ring record's size is
one of {3, 5, 7, 9} and is at least `2 * i + 3` for ring index i, i.e. the
scan size `atR` passes to the sensor read always covers the half-width
`i + 1` of the ring it was looked up for. -/
theorem ring_size_invariant (r : Radar) (h : Reachable r) :
    ∀ i : Fin 4, (r.scan_time.get i).1 ∈ [3, 5, 7, 9] ∧
      2 * i.val + 3 ≤ (r.scan_time.get i).1 := by
  induction h with
  | new => decide
  | scan r ready time size hr ih =>
    cases ready
    · rw [scan_fst_of_not_ready]; exact ih
    · by_cases h3 : size = 3
      · subst h3
        intro i
        fin_cases i
        · exact ⟨by show (3 : Nat) ∈ [3, 5, 7, 9]; decide, by show 2 * 0 + 3 ≤ 3; decide⟩
        · exact ih 1
        · exact ih 2
        · exact ih 3
      by_cases h5 : size = 5
      · subst h5
        intro i
        fin_cases i
        · exact ⟨by show (5 : Nat) ∈ [3, 5, 7, 9]; decide, by show 2 * 0 + 3 ≤ 5; decide⟩
        · exact ⟨by show (5 : Nat) ∈ [3, 5, 7, 9]; decide, by show 2 * 1 + 3 ≤ 5; decide⟩
        · exact ih 2
        · exact ih 3
      by_cases h7 : size = 7
      · subst h7
        intro i
        fin_cases i
        · exact ⟨by show (7 : Nat) ∈ [3, 5, 7, 9]; decide, by show 2 * 0 + 3 ≤ 7; decide⟩
        · exact ⟨by show (7 : Nat) ∈ [3, 5, 7, 9]; decide, by show 2 * 1 + 3 ≤ 7; decide⟩
        · exact ⟨by show (7 : Nat) ∈ [3, 5, 7, 9]; decide, by show 2 * 2 + 3 ≤ 7; decide⟩
        · exact ih 3
      by_cases h9 : size = 9
      · subst h9
        intro i
        fin_cases i
        · exact ⟨by show (9 : Nat) ∈ [3, 5, 7, 9]; decide, by show 2 * 0 + 3 ≤ 9; decide⟩
        · exact ⟨by show (9 : Nat) ∈ [3, 5, 7, 9]; decide, by show 2 * 1 + 3 ≤ 9; decide⟩
        · exact ⟨by show (9 : Nat) ∈ [3, 5, 7, 9]; decide, by show 2 * 2 + 3 ≤ 9; decide⟩
        · exact ⟨by show (9 : Nat) ∈ [3, 5, 7, 9]; decide, by show 2 * 3 + 3 ≤ 9; decide⟩
      rw [scan_fst_of_invalid r time size h3 h5 h7 h9]; exact ih

/-- C10 witness: the invariant at the initial state, ring 2. -/
theorem ring_size_invariant_witness :
    (Radar.new.scan_time.get 2).1 ∈ [3, 5, 7, 9] ∧
    2 * (2 : Fin 4).val + 3 ≤ (Radar.new.scan_time.get 2).1 :=
  ring_size_invariant Radar.new Reachable.new 2

end KartoffelRadar
